import Mathlib

/-!
Verification development for the ProfileMonitor repository
(`github.1h.py` and `scholar.4h.py`): two single-shot xbar plugin scripts
that fetch data from a web API through a read-through, time-expiring JSON
file cache and render the result as menu-bar text.

The Python sources are shallowly embedded: JSON values become the `JVal`
inductive, the cache file on disk becomes `CacheFile`, exceptions become
`Except`, and wall-clock time becomes explicit integer parameters.
-/

namespace ProfileMonitor

/-- JSON values, as produced by Python's `json.load` / `response.json()`.
Numbers are modelled as integers (the scripts only compare and print them;
the fractional part of `time.time()` is irrelevant to every branch). -/
inductive JVal where
  | jnull
  | jbool (b : Bool)
  | jnum (n : Int)
  | jstr (s : String)
  | jarr (xs : List JVal)
  | jobj (fs : List (String × JVal))

/-- First binding of a key in an object's field list (Python dicts hold each
key once, so first match equals the dict lookup). -/
def lookupField : List (String × JVal) → String → Option JVal
  | [], _ => none
  | (k, v) :: rest, key => if k = key then some v else lookupField rest key

/-- Python truthiness of a JSON-derived value (`if x:`). -/
def truthy : JVal → Bool
  | .jnull => false
  | .jbool b => b
  | .jnum n => n != 0
  | .jstr s => s != ""
  | .jarr xs => !xs.isEmpty
  | .jobj fs => !fs.isEmpty

/-- Numeric view of a value for arithmetic contexts; Python `bool` is an
`int` subclass, so `True`/`False` act as `1`/`0`. Non-numeric values make
arithmetic raise `TypeError`. -/
def numVal : JVal → Option Int
  | .jnum n => some n
  | .jbool b => some (if b then 1 else 0)
  | _ => none

/-- Python exceptions raised by the value-manipulating primitives. -/
inductive PyErr where
  | typeError
  | keyError
  | attrError
  | indexError
  | valueError

/-- Python `v[key]` with a string key: dict lookup (KeyError when absent),
`TypeError` on every other value (lists and strings need integer indices). -/
def pySub (v : JVal) (key : String) : Except PyErr JVal :=
  match v with
  | .jobj fs =>
      match lookupField fs key with
      | some x => .ok x
      | none => .error .keyError
  | _ => .error .typeError

/-- Python `v.get(key, dflt)`: only dicts have `.get` (`AttributeError`
otherwise). -/
def pyGet (v : JVal) (key : String) (dflt : JVal) : Except PyErr JVal :=
  match v with
  | .jobj fs => .ok ((lookupField fs key).getD dflt)
  | _ => .error .attrError

/-- Python `len(v)`: defined for dicts, lists and strings. -/
def pyLen (v : JVal) : Except PyErr Nat :=
  match v with
  | .jobj fs => .ok fs.length
  | .jarr xs => .ok xs.length
  | .jstr s => .ok s.length
  | _ => .error .typeError

/-- Character-list prefix test, used for the substring semantics of
Python's `in` on strings. -/
def listIsPrefix : List Char → List Char → Bool
  | [], _ => true
  | _ :: _, [] => false
  | a :: as, b :: bs => a == b && listIsPrefix as bs

/-- Character-list infix test. -/
def listIsInfix (needle : List Char) : List Char → Bool
  | [] => listIsPrefix needle []
  | b :: bs => listIsPrefix needle (b :: bs) || listIsInfix needle bs

/-- Substring containment on strings (`needle in hay` in Python). -/
def strContains (hay needle : String) : Bool :=
  listIsInfix needle.toList hay.toList

/-- Python `key in v` for a string `key`: key membership for dicts, element
membership for lists (a string equals only an equal string), substring test
for strings, `TypeError` otherwise. -/
def pyIn (key : String) (v : JVal) : Except PyErr Bool :=
  match v with
  | .jobj fs => .ok (fs.any (fun p => p.1 = key))
  | .jarr xs =>
      .ok (xs.any (fun x => match x with | .jstr s => s = key | _ => false))
  | .jstr s => .ok (strContains s key)
  | _ => .error .typeError

/-- Python iteration `for x in v`: lists yield elements, dicts yield their
keys, strings yield one-character strings, anything else raises
`TypeError`. -/
def pyIter (v : JVal) : Except PyErr (List JVal) :=
  match v with
  | .jarr xs => .ok xs
  | .jobj fs => .ok (fs.map (fun p => .jstr p.1))
  | .jstr s => .ok (s.toList.map (fun c => .jstr (String.mk [c])))
  | _ => .error .typeError

mutual
/-- Python `repr` of a JSON value (string escaping inside nested containers
is not modelled — no theorem in this file prints a container). -/
def pyRepr : JVal → String
  | .jnull => "None"
  | .jbool b => if b then "True" else "False"
  | .jnum n => toString n
  | .jstr s => "'" ++ s ++ "'"
  | .jarr xs => "[" ++ pyReprList xs ++ "]"
  | .jobj fs => "\x7b" ++ pyReprFields fs ++ "\x7d"

/-- Comma-separated `repr` of list elements. -/
def pyReprList : List JVal → String
  | [] => ""
  | [x] => pyRepr x
  | x :: y :: rest => pyRepr x ++ ", " ++ pyReprList (y :: rest)

/-- Comma-separated `repr` of dict entries. -/
def pyReprFields : List (String × JVal) → String
  | [] => ""
  | [(k, v)] => "'" ++ k ++ "': " ++ pyRepr v
  | (k, v) :: p :: rest => "'" ++ k ++ "': " ++ pyRepr v ++ ", " ++ pyReprFields (p :: rest)
end

/-- Python `str(v)` as used by f-string interpolation: strings verbatim,
everything else via `repr` (which for `None`, booleans and numbers
coincides with `str`). -/
def pyStr (v : JVal) : String :=
  match v with
  | .jstr s => s
  | _ => pyRepr v

/-- Python `v[i]` with an integer index: list indexing (IndexError out of
range), string indexing (one-character string), dict lookup by an integer
key misses every string key of a JSON object (KeyError), `TypeError`
otherwise. -/
def pyIdx (v : JVal) (i : Nat) : Except PyErr JVal :=
  match v with
  | .jarr xs =>
      match xs[i]? with
      | some x => .ok x
      | none => .error .indexError
  | .jobj _ => .error .keyError
  | .jstr s =>
      match s.toList[i]? with
      | some c => .ok (.jstr (String.mk [c]))
      | none => .error .indexError
  | _ => .error .typeError

/-- The observable state of a cache file: absent, present but unreadable
(`open`/`read` raises), present but not valid JSON (`json.load` raises), or
present with a parsed JSON value. -/
inductive CacheFile where
  | absent
  | unreadable
  | malformed
  | content (v : JVal)

/-- Cache expiration window of `github.1h.py` (`CACHE_EXPIRATION = 60 * 60`). -/
def CACHE_EXPIRATION_github : Int := 60 * 60

/-- Cache expiration window of `scholar.4h.py` (`CACHE_EXPIRATION = 4 * 60 * 60`). -/
def CACHE_EXPIRATION_scholar : Int := 4 * 60 * 60

/-- Function `load_cache` of both scripts (they are textually identical up to the
window constant): returns the parsed entry's `"data"` payload when the file
exists, parses, and `now - entry["timestamp"] <= window`; every failure
path — absent file, read error, parse error, non-dict JSON, non-numeric
timestamp (`TypeError` in the subtraction), expired entry, missing `"data"`
key — is caught by the `try/except` and collapses to Python `None`
(modelled as `.jnull`, which is what `json` round-trips `None` to and what
every caller's truthiness test sees). The Lean function is total: the
Python function never raises. A missing `"timestamp"` defaults to `0`. -/
def load_cache (now window : Int) (cf : CacheFile) : JVal :=
  match cf with
  | .content (.jobj fs) =>
      match numVal ((lookupField fs "timestamp").getD (.jnum 0)) with
      | some t =>
          if now - t > window then .jnull
          else (lookupField fs "data").getD .jnull
      | none => .jnull
  | _ => .jnull

/-- Function `save_cache` of both scripts: writes `{"timestamp": now, "data": data}`
wholesale; any write failure (`writeOk = false`) is swallowed and leaves
the file as it was. -/
def save_cache (now : Int) (data : JVal) (writeOk : Bool) (cf : CacheFile) : CacheFile :=
  if writeOk then .content (.jobj [("timestamp", .jnum now), ("data", data)])
  else cf

/-- Outcome of one orchestrator invocation: the returned value or the
propagated exception, the number of live fetch attempts performed, and the
cache file afterwards. -/
structure Run (ε : Type) where
  value : Except ε JVal
  attempts : Nat
  cache : CacheFile

/-- Orchestrator `fetch_github_data` (lines 167-196): return a truthy cached payload
without touching the network; otherwise perform the single live fetch
(modelled by `live`, covering lines 175-191), write through to the cache on
success, and let any failure propagate. -/
def fetch_github_data {ε : Type} (now window : Int) (cf : CacheFile)
    (live : Except ε JVal) (writeOk : Bool) : Run ε :=
  let cached := load_cache now window cf
  if truthy cached then ⟨.ok cached, 0, cf⟩
  else
    match live with
    | .ok d => ⟨.ok d, 1, save_cache now d writeOk cf⟩
    | .error e => ⟨.error e, 1, cf⟩

/-- Accumulator loop of `parseIntStr`: consume decimal digits. -/
def digitsToNatAux : Nat → List Char → Option Nat
  | acc, [] => some acc
  | acc, c :: rest =>
      if c.isDigit then digitsToNatAux (acc * 10 + (c.toNat - 48)) rest
      else none

/-- Decimal digit run to a natural number; empty input is invalid. -/
def digitsToNat : List Char → Option Nat
  | [] => none
  | l => digitsToNatAux 0 l

/-- Python `int(s)` on a decimal string: optional sign then digits
(`ValueError` otherwise; surrounding-whitespace tolerance is not
modelled — the rate-limit header never carries any). -/
def parseIntStr (s : String) : Option Int :=
  match s.toList with
  | '-' :: rest => (digitsToNat rest).map (fun n => -(n : Int))
  | '+' :: rest => (digitsToNat rest).map (fun n => (n : Int))
  | l => (digitsToNat l).map (fun n => (n : Int))

/-- An HTTP response as the scripts observe it: status code, the two
rate-limit headers (absent when the server did not send them), the raw
body, and the body's JSON parse (`none` when `response.json()` would
raise). -/
structure HttpResponse where
  status : Nat
  rateRemaining : Option String
  rateReset : Option String
  body : String
  bodyJson : Option JVal

/-- Failure modes of `make_github_request`: the explicit rate-limit
exception (carrying the reset epoch second parsed from the header), the
`requests.HTTPError` from `raise_for_status` (which carries the response's
status and body), a `response.json()` parse failure, and the
KeyError/ValueError raised when the reset header is missing or
non-numeric. -/
inductive GHError where
  | rateLimited (resetEpoch : Int)
  | httpError (status : Nat) (body : String)
  | jsonError
  | headerError

/-- Model of `response.raise_for_status()` followed by `response.json()`:
`raise_for_status` raises exactly for statuses 400-599. -/
def raiseForStatusJson (r : HttpResponse) : Except GHError JVal :=
  if 400 ≤ r.status ∧ r.status < 600 then .error (.httpError r.status r.body)
  else
    match r.bodyJson with
    | some v => .ok v
    | none => .error .jsonError

/-- Function `make_github_request` (lines 55-74): on status 403 with the
`X-RateLimit-Remaining` header present and equal to `"0"`, raise the
rate-limit exception with the reset time parsed from `X-RateLimit-Reset`
(a missing or unparseable reset header makes that very `raise` statement
itself fail with KeyError/ValueError instead); in every other case fall
through to `raise_for_status` and return the parsed body. -/
def make_github_request (r : HttpResponse) : Except GHError JVal :=
  if r.status = 403 ∧ r.rateRemaining.isSome then
    if r.rateRemaining = some "0" then
      match r.rateReset with
      | some s =>
          match parseIntStr s with
          | some t => .error (.rateLimited t)
          | none => .error .headerError
      | none => .error .headerError
    else raiseForStatusJson r
  else raiseForStatusJson r

/-- The repository-listing endpoint viewed as pages: page `p` (1-based)
holds items `(p-1)*pageSize` to `p*pageSize - 1` of the full list. -/
def pageOf (items : List JVal) (pageSize page : Nat) : List JVal :=
  (items.drop ((page - 1) * pageSize)).take pageSize

/-- The `while True` loop of `fetch_repos_data` (lines 110-121), fuelled to
make it a total function: request the current page, stop on an empty page,
otherwise accumulate and advance. Returns the accumulated repositories and
the number of requests issued; exhausted fuel (never reached in the
theorems below) reports the accumulator with 0 further requests. -/
def reposLoop (serve : Nat → List JVal) : Nat → Nat → List JVal → List JVal × Nat
  | 0, _, acc => (acc, 0)
  | fuel + 1, page, acc =>
      let repos := serve page
      if repos.isEmpty then (acc, 1)
      else
        let r := reposLoop serve fuel (page + 1) (acc ++ repos)
        (r.1, r.2 + 1)

/-- Function `fetch_repos_data`: start at page 1 with an empty accumulator
(`per_page` is fixed at 100 by the caller through `serve`). -/
def fetch_repos_data (serve : Nat → List JVal) (fuel : Nat) : List JVal × Nat :=
  reposLoop serve fuel 1 []

/-- Failure modes of `fetch_scholar_data`: the `requests.get` call raising
(timeout/connection, carrying its message), a `response.json()` parse
failure, the explicit `SERP API Error` exception, or an exception raised by
the result-assembly code itself. -/
inductive ScholarErr where
  | netError (msg : String)
  | jsonError
  | serpError (msg : String)
  | pyErr (e : PyErr)

/-- Lift a raised Python exception into the scholar fetch's error type. -/
def liftPy {α : Type} : Except PyErr α → Except ScholarErr α
  | .ok a => .ok a
  | .error e => .error (.pyErr e)

/-- The `for year_data in graph` loop (lines 134-137): the first entry whose
`.get("year")` equals the current year contributes `.get("citations", 0)`
and breaks; non-dict entries make `.get` raise `AttributeError`. -/
def graphLoop (currentYear : Int) : List JVal → Except PyErr (Option JVal)
  | [] => .ok none
  | yd :: rest =>
      match yd with
      | .jobj fs =>
          match (lookupField fs "year").getD .jnull with
          | .jnum y =>
              if y = currentYear then .ok (some ((lookupField fs "citations").getD (.jnum 0)))
              else graphLoop currentYear rest
          | _ => graphLoop currentYear rest
      | _ => .error .attrError

/-- Lines 112-113: `if "author" in data and "name" in data["author"]:`
followed by the assignment, else the `"Unknown"` default. -/
def scholarAuthorName (data : JVal) : Except ScholarErr JVal := do
  let cAuthor ← liftPy (pyIn "author" data)
  if cAuthor then do
    let a ← liftPy (pySub data "author")
    let cName ← liftPy (pyIn "name" a)
    if cName then do
      let a2 ← liftPy (pySub data "author")
      liftPy (pySub a2 "name")
    else Except.ok (JVal.jstr "Unknown")
  else Except.ok (JVal.jstr "Unknown")

/-- Line 116-117: `if "cited_by" in data and "table" in data["cited_by"]:`
then `citation_table = data["cited_by"]["table"]`; `none` when the guard
fails. -/
def scholarTableOpt (data : JVal) : Except ScholarErr (Option JVal) := do
  let cCited ← liftPy (pyIn "cited_by" data)
  if cCited then do
    let cb ← liftPy (pySub data "cited_by")
    let cTable ← liftPy (pyIn "table" cb)
    if cTable then do
      let cb2 ← liftPy (pySub data "cited_by")
      let t ← liftPy (pySub cb2 "table")
      Except.ok (some t)
    else Except.ok none
  else Except.ok (none : Option JVal)

/-- One statistic block (lines 120-129):
`if len(citation_table) > i and key in citation_table[i]:` then
`citation_table[i][key]["all"]`, else the `0` default. -/
def scholarStat (t : JVal) (i : Nat) (key : String) : Except ScholarErr JVal := do
  let l ← liftPy (pyLen t)
  if i < l then do
    let e ← liftPy (pyIdx t i)
    let c ← liftPy (pyIn key e)
    if c then do
      let eb ← liftPy (pyIdx t i)
      let cell ← liftPy (pySub eb key)
      liftPy (pySub cell "all")
    else Except.ok (JVal.jnum 0)
  else Except.ok (JVal.jnum 0)

/-- Lines 132-137: the current-year citations from `cited_by.graph`,
defaulting to `0` when the guard fails or no entry matches the year. -/
def scholarGraphVal (data : JVal) (currentYear : Int) : Except ScholarErr JVal := do
  let cCited2 ← liftPy (pyIn "cited_by" data)
  if cCited2 then do
    let cb ← liftPy (pySub data "cited_by")
    let cGraph ← liftPy (pyIn "graph" cb)
    if cGraph then do
      let cb2 ← liftPy (pySub data "cited_by")
      let g ← liftPy (pySub cb2 "graph")
      let entries ← liftPy (pyIter g)
      let found ← liftPy (graphLoop currentYear entries)
      Except.ok (found.getD (JVal.jnum 0))
    else Except.ok (JVal.jnum 0)
  else Except.ok (JVal.jnum 0)

/-- The body-processing part of `fetch_scholar_data` (lines 95-142, after
the cache miss): parse the response, raise on an `"error"` key, then
assemble the normalized record in source order — author name, the three
citation-table statistics, the current-year graph value — substituting
`"Unknown"`/`0` defaults through the helpers above. `nowStr` is
`datetime.now().strftime("%Y-%m-%d %H:%M")` and `currentYear` is
`datetime.now().year`. -/
def scholarFetchBody (r : HttpResponse) (nowStr : String) (currentYear : Int) :
    Except ScholarErr JVal := do
  let data ← match r.bodyJson with
    | some d => Except.ok d
    | none => Except.error ScholarErr.jsonError
  let hasError ← liftPy (pyIn "error" data)
  if hasError then do
    let ev ← liftPy (pySub data "error")
    Except.error (.serpError ("SERP API Error: " ++ pyStr ev))
  else do
    let nameV ← scholarAuthorName data
    let tableOpt ← scholarTableOpt data
    let citV ← match tableOpt with
      | none => Except.ok (JVal.jnum 0)
      | some t => scholarStat t 0 "citations"
    let hV ← match tableOpt with
      | none => Except.ok (JVal.jnum 0)
      | some t => scholarStat t 1 "h_index"
    let iV ← match tableOpt with
      | none => Except.ok (JVal.jnum 0)
      | some t => scholarStat t 2 "i10_index"
    let cyV ← scholarGraphVal data currentYear
    Except.ok (JVal.jobj
      [("name", nameV), ("citations", citV), ("h_index", hV),
       ("i10_index", iV), ("current_year_citations", cyV),
       ("last_updated", .jstr nowStr)])

/-- Orchestrator `fetch_scholar_data` (lines 74-142): truthy cached payload short-circuits
the network; otherwise the single `requests.get` (`resp`, whose `.error`
case models the request itself raising) is made, its body processed, and a
successful record written through to the cache. -/
def fetch_scholar_data (now window : Int) (cf : CacheFile)
    (resp : Except String HttpResponse) (nowStr : String) (currentYear : Int)
    (writeOk : Bool) : Run ScholarErr :=
  let cached := load_cache now window cf
  if truthy cached then ⟨.ok cached, 0, cf⟩
  else
    match resp with
    | .error msg => ⟨.error (.netError msg), 1, cf⟩
    | .ok r =>
        match scholarFetchBody r nowStr currentYear with
        | .ok result => ⟨.ok result, 1, save_cache now result writeOk cf⟩
        | .error e => ⟨.error e, 1, cf⟩

/-- Message text of a raised Python exception (`str(e)`). The library
exception texts are not modelled precisely; no theorem below depends on
them. -/
def pyErrMsg : PyErr → String
  | .typeError => "TypeError"
  | .keyError => "KeyError"
  | .attrError => "AttributeError"
  | .indexError => "IndexError"
  | .valueError => "ValueError"

/-- Message `str(e)` for `fetch_scholar_data` failures; the network and SERP
messages are carried exactly, the library texts are representative. -/
def scholarErrMsg : ScholarErr → String
  | .netError m => m
  | .jsonError => "Expecting value: line 1 column 1 (char 0)"
  | .serpError m => m
  | .pyErr e => pyErrMsg e

/-- Renderer `format_xbar_output` of `github.1h.py` (lines 198-257). `fmtStar` is an
abstract stand-in for lines 234-243 only: `datetime.strptime` on one
star's `"time"` value and the wall-clock relative-time text (`"3d ago"`),
which depend on real time; it may raise (`ValueError` on a malformed
timestamp). Every dictionary access and the assembly order are modelled
concretely. The result is the single string passed to `print`. -/
def format_xbar_output (fmtStar : JVal → Except PyErr String) (gd : JVal) :
    Except PyErr String := do
  let username ← pySub gd "username"
  let name ← pySub gd "name"
  let stars_received ← pySub gd "stars_received"
  let followers ← pySub gd "followers"
  let monitored_repos ← pySub gd "monitored_repos"
  let recent_stars ← pySub gd "recent_stars"
  let last_updated ← pyGet gd "last_updated" (.jstr "Unknown")
  let top_line := "‚≠ê " ++ pyStr name ++ ": " ++ pyStr stars_received ++ " | color=#6e5494 size=14"
  let public_repos ← pySub gd "public_repos"
  let dropdownHead : List String :=
    ["---",
     "üë§ " ++ pyStr name ++ " (@" ++ pyStr username ++ ") | color=#000000 size=14",
     "---",
     "üìä GitHub Statistics:",
     "‚≠ê Total Stars Received: " ++ pyStr stars_received ++ " | color=#E3B341",
     "üë• Followers: " ++ pyStr followers ++ " | color=#6e5494",
     "üóÇ Public Repositories: " ++ pyStr public_repos ++ " | color=#238636",
     "---",
     "üìå Monitored Repositories:"]
  let repoItems ← pyIter monitored_repos
  let repoLines ← repoItems.mapM (fun repo => do
    let nm ← pySub repo "name"
    let st ← pySub repo "stars"
    let url ← pySub repo "url"
    pure ("‚Ä¢ " ++ pyStr nm ++ ": ‚≠ê " ++ pyStr st ++ " | href=" ++ pyStr url ++ " color=#0969DA"))
  let starLines ←
    if truthy recent_stars then do
      let stars ← pyIter recent_stars
      let ls ← stars.mapM (fun star => do
        let tV ← pySub star "time"
        let time_str ← fmtStar tV
        let actor ← pySub star "actor"
        let rn ← pySub star "repo_name"
        let ru ← pySub star "repo_url"
        pure ("‚Ä¢ " ++ pyStr actor ++ " ‚Üí " ++ pyStr rn ++ " (" ++ time_str ++ ") | href=" ++ pyStr ru ++ " color=#0969DA"))
      pure (["---", "üîî Recently Starred by People You Follow:"] ++ ls)
    else pure ([] : List String)
  let footer : List String :=
    ["---",
     "üïí Last Updated: " ++ pyStr last_updated ++ " | color=#7F7F7F size=12",
     "---",
     "üîç View Profile | href=https://github.com/" ++ pyStr username,
     "---",
     "üîÑ Refresh Data | refresh=true"]
  pure (String.intercalate "\n"
    ([top_line] ++ dropdownHead ++ repoLines ++ starLines ++ footer))

/-- The `except` block of `github.1h.py`'s entry point (lines 263-279):
reload the cache through the same expiring `load_cache`, render the
"(cached)" degraded view when it yields a truthy payload, otherwise the
minimal error view. Returns the list of strings printed to stdout (one
element per `print` call) and the process exit code; an exception escaping
the handler (a malformed truthy payload) aborts the remaining prints and
exits 1. -/
def github_fallback (now window : Int) (cf : CacheFile) (errMsg : String)
    (fmtStar : JVal → Except PyErr String) : List String × Nat :=
  let cached := load_cache now window cf
  if truthy cached then
    match pySub cached "name" with
    | .error _ => ([], 1)
    | .ok nm =>
      match pySub cached "stars_received" with
      | .error _ => ([], 1)
      | .ok st =>
        let line1 := ("‚≠ê " ++ pyStr nm ++ ": " ++ pyStr st) ++ " (cached) | color=#F4B400 size=14"
        match format_xbar_output fmtStar cached with
        | .error _ => ([line1, "---", "‚ö†Ô∏è Using cached data | color=#F4B400"], 1)
        | .ok s =>
            ([line1, "---", "‚ö†Ô∏è Using cached data | color=#F4B400", s, "---",
              "‚ùå Error: " ++ errMsg ++ " | color=#DB4437"], 0)
  else
    (["‚ùå GitHub | color=red", "---",
      "API Error: " ++ errMsg ++ " | color=#DB4437",
      "Please check your configuration and network | color=#7F7F7F",
      "---",
      "üîÑ Try Again | refresh=true"], 0)

/-- The `__main__` block of `github.1h.py` (lines 259-279): try the
orchestrator and render; on any exception (from the fetch or from the
renderer itself) fall back to the cache as it stands after the attempt.
The `live` argument's `.error` carries `str(e)` of the fetch failure. -/
def github_main (now window : Int) (cf : CacheFile) (live : Except String JVal)
    (writeOk : Bool) (fmtStar : JVal → Except PyErr String) : List String × Nat :=
  let run := fetch_github_data now window cf live writeOk
  match run.value with
  | .ok gd =>
      match format_xbar_output fmtStar gd with
      | .ok s => ([s], 0)
      | .error e => github_fallback now window run.cache (pyErrMsg e) fmtStar
  | .error msg => github_fallback now window run.cache msg fmtStar

/-- Renderer `format_xbar_output` of `scholar.4h.py` (lines 144-174); `scholarId` is
the `SCHOLAR_ID` configuration constant. -/
def scholar_format (scholarId : String) (sd : JVal) : Except PyErr String := do
  let name ← pySub sd "name"
  let citations ← pySub sd "citations"
  let h_index ← pySub sd "h_index"
  let i10_index ← pySub sd "i10_index"
  let current_year_citations ← pySub sd "current_year_citations"
  let last_updated ← pyGet sd "last_updated" (.jstr "Unknown")
  pure (String.intercalate "\n"
    ["ğŸ“š " ++ pyStr name ++ ": " ++ pyStr citations ++ " | color=#4285F4 size=14",
     "---",
     "ğŸ‘¤ " ++ pyStr name ++ " | color=#000000 size=14",
     "---",
     "ğŸ“Š Citation Statistics:",
     "Total Citations: " ++ pyStr citations ++ " | color=#0F9D58",
     "Citations This Year: " ++ pyStr current_year_citations ++ " | color=#F4B400",
     "h-index: " ++ pyStr h_index ++ " | color=#DB4437",
     "i10-index: " ++ pyStr i10_index ++ " | color=#4285F4",
     "---",
     "ğŸ•’ Last Updated: " ++ pyStr last_updated ++ " | color=#7F7F7F size=12",
     "---",
     "ğŸ” View on Google Scholar | href=https://scholar.google.com/citations?user=" ++ scholarId,
     "---",
     "ğŸ”„ Refresh Data | refresh=true"])

/-- The `except` block of `scholar.4h.py`'s entry point (lines 180-197),
mirroring `github_fallback`. -/
def scholar_fallback (now window : Int) (cf : CacheFile) (errMsg : String)
    (scholarId : String) : List String × Nat :=
  let cached := load_cache now window cf
  if truthy cached then
    match pySub cached "name" with
    | .error _ => ([], 1)
    | .ok nm =>
      match pySub cached "citations" with
      | .error _ => ([], 1)
      | .ok cit =>
        let line1 := ("ğŸ‘¤ " ++ pyStr nm ++ ": ğŸ“š " ++ pyStr cit) ++ " (cached) | color=#F4B400 size=14"
        match scholar_format scholarId cached with
        | .error _ => ([line1, "---", "âš ï¸ Using cached data | color=#F4B400"], 1)
        | .ok s =>
            ([line1, "---", "âš ï¸ Using cached data | color=#F4B400", s, "---",
              "âŒ Error: " ++ errMsg ++ " | color=#DB4437"], 0)
  else
    (["âŒ Error | color=red", "---",
      "API Error: " ++ errMsg ++ " | color=#DB4437",
      "Please Check Your Network | color=#7F7F7F",
      "---",
      "ğŸ”„ Try Again | refresh=true"], 0)

/-- The `__main__` block of `scholar.4h.py` (lines 176-197). -/
def scholar_main (now window : Int) (cf : CacheFile)
    (resp : Except String HttpResponse) (nowStr : String) (currentYear : Int)
    (writeOk : Bool) (scholarId : String) : List String × Nat :=
  let run := fetch_scholar_data now window cf resp nowStr currentYear writeOk
  match run.value with
  | .ok sd =>
      match scholar_format scholarId sd with
      | .ok s => ([s], 0)
      | .error e => scholar_fallback now window run.cache (pyErrMsg e) scholarId
  | .error e => scholar_fallback now window run.cache (scholarErrMsg e) scholarId

/-- Discriminate success of an `Except` value. -/
def isOkE {ε α : Type} : Except ε α → Bool
  | .ok _ => true
  | .error _ => false

/-- A stub for the relative-time formatter, used to instantiate the
renderer's `fmtStar` parameter at concrete inputs. -/
def fmtStarStub : JVal → Except PyErr String := fun _ => .ok "0m ago"

lemma load_cache_fresh (now window t : Int) (fs : List (String × JVal)) (d : JVal)
    (ht : lookupField fs "timestamp" = some (.jnum t))
    (hd : lookupField fs "data" = some d) (h : now - t ≤ window) :
    load_cache now window (.content (.jobj fs)) = d := by
  simp only [load_cache, ht, Option.getD_some, numVal]
  rw [if_neg (by omega), hd, Option.getD_some]

lemma load_cache_stale (now window t : Int) (fs : List (String × JVal))
    (ht : lookupField fs "timestamp" = some (.jnum t)) (h : window < now - t) :
    load_cache now window (.content (.jobj fs)) = .jnull := by
  simp only [load_cache, ht, Option.getD_some, numVal]
  rw [if_pos (by omega)]

lemma load_cache_no_data (now window : Int) (fs : List (String × JVal))
    (hd : lookupField fs "data" = none) :
    load_cache now window (.content (.jobj fs)) = .jnull := by
  simp only [load_cache]
  cases numVal ((lookupField fs "timestamp").getD (.jnum 0)) with
  | none => rfl
  | some t =>
      simp only []
      split
      · rfl
      · rw [hd]; rfl

lemma load_cache_no_timestamp (now window : Int) (fs : List (String × JVal))
    (ht : lookupField fs "timestamp" = none) (h : window < now) :
    load_cache now window (.content (.jobj fs)) = .jnull := by
  simp only [load_cache, ht, Option.getD_none, numVal]
  rw [if_pos (by omega)]

/-- C3. For every cache-file state that is absent, unreadable, malformed
JSON, missing the `"data"` field, missing the `"timestamp"` field (at any
wall-clock instant later than one window after the epoch), or holding an
entry older than the expiration window, `load_cache` returns `None`
(`.jnull`); for every well-formed entry no older than the window it
returns the stored `"data"` payload. The Python function never raises:
everything after the existence check sits in a catch-all `try/except`
returning `None`, which the totality of the Lean `load_cache` mirrors. -/
theorem C3_load_cache_total :
    (∀ now window : Int, load_cache now window .absent = .jnull) ∧
    (∀ now window : Int, load_cache now window .unreadable = .jnull) ∧
    (∀ now window : Int, load_cache now window .malformed = .jnull) ∧
    (∀ (now window : Int) (fs : List (String × JVal)),
      lookupField fs "data" = none →
      load_cache now window (.content (.jobj fs)) = .jnull) ∧
    (∀ (now window : Int) (fs : List (String × JVal)),
      lookupField fs "timestamp" = none → window < now →
      load_cache now window (.content (.jobj fs)) = .jnull) ∧
    (∀ (now window t : Int) (fs : List (String × JVal)),
      lookupField fs "timestamp" = some (.jnum t) → window < now - t →
      load_cache now window (.content (.jobj fs)) = .jnull) ∧
    (∀ (now window t : Int) (fs : List (String × JVal)) (d : JVal),
      lookupField fs "timestamp" = some (.jnum t) →
      lookupField fs "data" = some d → now - t ≤ window →
      load_cache now window (.content (.jobj fs)) = d) :=
  ⟨fun _ _ => rfl, fun _ _ => rfl, fun _ _ => rfl,
   fun now window fs hd => load_cache_no_data now window fs hd,
   fun now window fs ht h => load_cache_no_timestamp now window fs ht h,
   fun now window t fs ht h => load_cache_stale now window t fs ht h,
   fun now window t fs d ht hd h => load_cache_fresh now window t fs d ht hd h⟩

/-- Witness for C3: a fresh well-formed entry is returned, a stale one is
dropped, at the github window. -/
theorem C3_witness :
    load_cache 100000 CACHE_EXPIRATION_github
      (.content (.jobj [("timestamp", .jnum 99000), ("data", .jnum 7)])) = .jnum 7 ∧
    load_cache 100000 CACHE_EXPIRATION_github
      (.content (.jobj [("timestamp", .jnum 0), ("data", .jnum 7)])) = .jnull :=
  ⟨C3_load_cache_total.2.2.2.2.2.2 100000 CACHE_EXPIRATION_github 99000 _ (.jnum 7)
      rfl rfl (by decide),
   C3_load_cache_total.2.2.2.2.2.1 100000 CACHE_EXPIRATION_github 0 _ rfl (by decide)⟩

/-- C4. Saving any serializable payload and immediately loading it back
within the expiration window returns exactly the payload: `save_cache`
writes `{"timestamp": now, "data": d}` and `load_cache` returns the
`"data"` field unchanged whenever `now2 - now ≤ window` (the `writeOk`
argument records that the swallowed-on-failure file write succeeded). -/
theorem C4_save_load_roundtrip (now now2 window : Int) (d : JVal) (cf : CacheFile)
    (h : now2 - now ≤ window) :
    load_cache now2 window (save_cache now d true cf) = d := by
  have : save_cache now d true cf
      = .content (.jobj [("timestamp", .jnum now), ("data", d)]) := rfl
  rw [this]
  exact load_cache_fresh now2 window now _ d rfl rfl h

/-- Witness for C4 at a concrete payload and concrete times. -/
theorem C4_witness :
    load_cache 1005 3600 (save_cache 1000 (.jobj [("k", .jnum 1)]) true .absent)
      = .jobj [("k", .jnum 1)] :=
  C4_save_load_roundtrip 1000 1005 3600 _ .absent (by decide)

lemma fetch_github_hit {ε : Type} (now window : Int) (cf : CacheFile)
    (live : Except ε JVal) (writeOk : Bool)
    (h : truthy (load_cache now window cf) = true) :
    fetch_github_data now window cf live writeOk
      = ⟨.ok (load_cache now window cf), 0, cf⟩ := by
  simp only [fetch_github_data, h, if_true]

lemma fetch_github_miss {ε : Type} (now window : Int) (cf : CacheFile)
    (live : Except ε JVal) (writeOk : Bool)
    (h : truthy (load_cache now window cf) = false) :
    fetch_github_data now window cf live writeOk
      = match live with
        | .ok d => ⟨.ok d, 1, save_cache now d writeOk cf⟩
        | .error e => ⟨.error e, 1, cf⟩ := by
  simp only [fetch_github_data, h, Bool.false_eq_true, if_false]

lemma fetch_scholar_hit (now window : Int) (cf : CacheFile)
    (resp : Except String HttpResponse) (nowStr : String) (year : Int)
    (writeOk : Bool) (h : truthy (load_cache now window cf) = true) :
    fetch_scholar_data now window cf resp nowStr year writeOk
      = ⟨.ok (load_cache now window cf), 0, cf⟩ := by
  simp only [fetch_scholar_data, h, if_true]

lemma fetch_scholar_miss (now window : Int) (cf : CacheFile)
    (resp : Except String HttpResponse) (nowStr : String) (year : Int)
    (writeOk : Bool) (h : truthy (load_cache now window cf) = false) :
    fetch_scholar_data now window cf resp nowStr year writeOk
      = match resp with
        | .error msg => ⟨.error (.netError msg), 1, cf⟩
        | .ok r =>
            match scholarFetchBody r nowStr year with
            | .ok result => ⟨.ok result, 1, save_cache now result writeOk cf⟩
            | .error e => ⟨.error e, 1, cf⟩ := by
  simp only [fetch_scholar_data, h, Bool.false_eq_true, if_false]

/-- C2. Both orchestrators consult the cache first: a truthy fresh cached
payload is returned with zero fetch attempts and an unchanged cache file;
otherwise exactly one fetch attempt is made (the `attempts` field counts
invocations of the single fetch site — the source has no loop or retry
around it), a successful result is written through to the cache and
returned, and a failing fetch leaves the cache untouched and propagates
its error to the entry point. -/
theorem C2_orchestrator :
    (∀ (ε : Type) (now window : Int) (cf : CacheFile) (live : Except ε JVal)
        (writeOk : Bool), truthy (load_cache now window cf) = true →
      fetch_github_data now window cf live writeOk
        = ⟨.ok (load_cache now window cf), 0, cf⟩) ∧
    (∀ (ε : Type) (now window : Int) (cf : CacheFile) (d : JVal) (writeOk : Bool),
      truthy (load_cache now window cf) = false →
      fetch_github_data now window cf (Except.ok d : Except ε JVal) writeOk
        = ⟨.ok d, 1, save_cache now d writeOk cf⟩) ∧
    (∀ (ε : Type) (now window : Int) (cf : CacheFile) (e : ε) (writeOk : Bool),
      truthy (load_cache now window cf) = false →
      fetch_github_data now window cf (Except.error e) writeOk
        = ⟨.error e, 1, cf⟩) ∧
    (∀ (now window : Int) (cf : CacheFile) (resp : Except String HttpResponse)
        (nowStr : String) (year : Int) (writeOk : Bool),
      truthy (load_cache now window cf) = true →
      fetch_scholar_data now window cf resp nowStr year writeOk
        = ⟨.ok (load_cache now window cf), 0, cf⟩) ∧
    (∀ (now window : Int) (cf : CacheFile) (msg nowStr : String) (year : Int)
        (writeOk : Bool), truthy (load_cache now window cf) = false →
      fetch_scholar_data now window cf (.error msg) nowStr year writeOk
        = ⟨.error (.netError msg), 1, cf⟩) ∧
    (∀ (now window : Int) (cf : CacheFile) (r : HttpResponse) (nowStr : String)
        (year : Int) (writeOk : Bool) (result : JVal),
      truthy (load_cache now window cf) = false →
      scholarFetchBody r nowStr year = .ok result →
      fetch_scholar_data now window cf (.ok r) nowStr year writeOk
        = ⟨.ok result, 1, save_cache now result writeOk cf⟩) ∧
    (∀ (now window : Int) (cf : CacheFile) (r : HttpResponse) (nowStr : String)
        (year : Int) (writeOk : Bool) (e : ScholarErr),
      truthy (load_cache now window cf) = false →
      scholarFetchBody r nowStr year = .error e →
      fetch_scholar_data now window cf (.ok r) nowStr year writeOk
        = ⟨.error e, 1, cf⟩) := by
  refine ⟨fun ε now window cf live wk h => fetch_github_hit now window cf live wk h,
    fun ε now window cf d wk h => fetch_github_miss now window cf _ wk h,
    fun ε now window cf e wk h => fetch_github_miss now window cf _ wk h,
    fun now window cf resp nowStr y wk h => fetch_scholar_hit now window cf resp nowStr y wk h,
    fun now window cf msg nowStr y wk h => fetch_scholar_miss now window cf _ nowStr y wk h,
    fun now window cf r nowStr y wk result h hb => ?_,
    fun now window cf r nowStr y wk e h hb => ?_⟩
  · simp only [fetch_scholar_data, h, Bool.false_eq_true, if_false, hb]
  · simp only [fetch_scholar_data, h, Bool.false_eq_true, if_false, hb]

/-- Witness for C2: a fresh truthy cache short-circuits the github fetch
with zero attempts, and on an absent cache a failing fetch propagates with
one attempt and an unchanged cache file. -/
theorem C2_witness :
    fetch_github_data 100000 3600
        (.content (.jobj [("timestamp", .jnum 99000), ("data", .jnum 7)]))
        (Except.error "net down" : Except String JVal) true
      = ⟨.ok (load_cache 100000 3600
          (.content (.jobj [("timestamp", .jnum 99000), ("data", .jnum 7)]))), 0,
          .content (.jobj [("timestamp", .jnum 99000), ("data", .jnum 7)])⟩ ∧
    fetch_github_data 100000 3600 .absent
        (Except.error "net down" : Except String JVal) true
      = ⟨.error "net down", 1, .absent⟩ :=
  ⟨C2_orchestrator.1 String 100000 3600 _ _ true (by decide),
   C2_orchestrator.2.2.1 String 100000 3600 .absent "net down" true (by decide)⟩

/-- C9. A cache entry that is fresh and well-formed but whose `"data"`
payload is falsy (`None`, `{}`, `[]`, `0`, `""`, `false`) is treated as a
miss by both orchestrators — `if cached_data:` tests truthiness, not
presence — so the single live fetch attempt is still performed. -/
theorem C9_falsy_payload_is_miss :
    (∀ (ε : Type) (now window t : Int) (d : JVal) (live : Except ε JVal)
        (writeOk : Bool), now - t ≤ window → truthy d = false →
      (fetch_github_data now window
          (.content (.jobj [("timestamp", .jnum t), ("data", d)]))
          live writeOk).attempts = 1) ∧
    (∀ (now window t : Int) (d : JVal) (resp : Except String HttpResponse)
        (nowStr : String) (year : Int) (writeOk : Bool),
      now - t ≤ window → truthy d = false →
      (fetch_scholar_data now window
          (.content (.jobj [("timestamp", .jnum t), ("data", d)]))
          resp nowStr year writeOk).attempts = 1) := by
  constructor
  · intro ε now window t d live wk h hf
    have hl : load_cache now window
        (.content (.jobj [("timestamp", .jnum t), ("data", d)])) = d :=
      load_cache_fresh now window t _ d rfl rfl h
    rw [fetch_github_miss _ _ _ _ _ (by rw [hl]; exact hf)]
    cases live <;> rfl
  · intro now window t d resp nowStr y wk h hf
    have hl : load_cache now window
        (.content (.jobj [("timestamp", .jnum t), ("data", d)])) = d :=
      load_cache_fresh now window t _ d rfl rfl h
    rw [fetch_scholar_miss now window _ resp nowStr y wk (by rw [hl]; exact hf)]
    cases resp with
    | error msg => rfl
    | ok r => cases hsb : scholarFetchBody r nowStr y <;> simp [hsb]

/-- Witness for C9: a fresh entry whose payload is the empty object still
causes a fetch attempt in both scripts. -/
theorem C9_witness :
    (fetch_github_data 100000 3600
        (.content (.jobj [("timestamp", .jnum 99000), ("data", .jobj [])]))
        (Except.ok (JVal.jnum 1) : Except String JVal) true).attempts = 1 ∧
    (fetch_scholar_data 100000 14400
        (.content (.jobj [("timestamp", .jnum 99000), ("data", .jobj [])]))
        (.error "net down") "2026-01-01 00:00" 2026 true).attempts = 1 :=
  ⟨C9_falsy_payload_is_miss.1 String 100000 3600 99000 (.jobj []) _ true
      (by decide) rfl,
   C9_falsy_payload_is_miss.2 100000 14400 99000 (.jobj []) _ "2026-01-01 00:00"
      2026 true (by decide) rfl⟩

lemma reposLoop_spec (items : List JVal) (pageSize : Nat) (hp : 0 < pageSize) :
    ∀ (fuel q : Nat) (acc : List JVal),
      (items.drop (q * pageSize)).length + pageSize ≤ fuel * pageSize →
      reposLoop (pageOf items pageSize) fuel (q + 1) acc
        = (acc ++ items.drop (q * pageSize),
           ((items.drop (q * pageSize)).length + pageSize - 1) / pageSize + 1) := by
  intro fuel
  induction fuel with
  | zero =>
      intro q acc hlen
      exfalso
      omega
  | succ f ih =>
      intro q acc hlen
      have hserve : pageOf items pageSize (q + 1) = (items.drop (q * pageSize)).take pageSize := rfl
      simp only [reposLoop, hserve]
      by_cases hR0 : items.drop (q * pageSize) = []
      · rw [hR0]
        simp only [List.take_nil, List.isEmpty_nil, if_true, hR0]
        simp only [List.append_nil, List.length_nil, Nat.zero_add]
        rw [Nat.div_eq_of_lt (by omega)]
      · have htake : ((items.drop (q * pageSize)).take pageSize).isEmpty = false := by
          cases hc : items.drop (q * pageSize) with
          | nil => exact absurd hc hR0
          | cons a t =>
              cases pageSize with
              | zero => omega
              | succ p => rfl
        rw [htake]
        simp only [Bool.false_eq_true, if_false]
        have hdrop : items.drop ((q + 1) * pageSize) = (items.drop (q * pageSize)).drop pageSize := by
          rw [List.drop_drop, Nat.succ_mul, Nat.add_comm]
        have hlen2 : (items.drop ((q + 1) * pageSize)).length
            = (items.drop (q * pageSize)).length - pageSize := by
          rw [hdrop, List.length_drop]
        have hR1 : 1 ≤ (items.drop (q * pageSize)).length :=
          List.length_pos.mpr hR0
        have hfpos : 1 ≤ f := by
          by_contra hf0
          have : f = 0 := by omega
          subst this
          omega
        have hps : pageSize ≤ f * pageSize := Nat.le_mul_of_pos_left pageSize hfpos
        have hlen' : (items.drop ((q + 1) * pageSize)).length + pageSize ≤ f * pageSize := by
          rw [hlen2]
          have hmul : (f + 1) * pageSize = f * pageSize + pageSize := Nat.succ_mul f pageSize
          omega
        rw [show q + 1 + 1 = (q + 1) + 1 from rfl, ih (q + 1) _ hlen']
        simp only [Prod.mk.injEq]
        constructor
        · rw [hdrop, List.append_assoc, List.take_append_drop]
        · rw [hlen2]
          rcases le_or_lt pageSize (items.drop (q * pageSize)).length with hge | hlt
          · have h1 : (items.drop (q * pageSize)).length - pageSize + pageSize - 1
                = ((items.drop (q * pageSize)).length - 1 - pageSize) + pageSize ∨
                  (items.drop (q * pageSize)).length = pageSize := by omega
            rcases Nat.lt_or_ge pageSize (items.drop (q * pageSize)).length with hgt | heq
            · have ha : (items.drop (q * pageSize)).length - pageSize + pageSize - 1
                  = ((items.drop (q * pageSize)).length - pageSize - 1) + pageSize := by omega
              have hb : (items.drop (q * pageSize)).length + pageSize - 1
                  = ((items.drop (q * pageSize)).length - 1) + pageSize := by omega
              rw [ha, hb, Nat.add_div_right _ hp, Nat.add_div_right _ hp]
              have hc : (items.drop (q * pageSize)).length - pageSize - 1 + pageSize
                  = (items.drop (q * pageSize)).length - 1 := by omega
              rw [show (items.drop (q * pageSize)).length - 1
                    = ((items.drop (q * pageSize)).length - pageSize - 1) + pageSize from by omega,
                  Nat.add_div_right _ hp]
            · have heq2 : (items.drop (q * pageSize)).length = pageSize := by omega
              rw [heq2]
              simp only [Nat.sub_self, Nat.zero_add]
              rw [Nat.div_eq_of_lt (by omega)]
              rw [show pageSize + pageSize - 1 = (pageSize - 1) + pageSize from by omega,
                  Nat.add_div_right _ hp, Nat.div_eq_of_lt (by omega)]
          · have h1 : (items.drop (q * pageSize)).length - pageSize = 0 := by omega
            rw [h1]
            simp only [Nat.zero_add]
            rw [Nat.div_eq_of_lt (by omega)]
            rw [show (items.drop (q * pageSize)).length + pageSize - 1
                  = ((items.drop (q * pageSize)).length - 1) + pageSize from by omega,
                Nat.add_div_right _ hp, Nat.div_eq_of_lt (by omega)]

/-- C5 (amended). The pagination loop accumulates every page of the full
repository list, in order, and stops only after a request that returns an
empty page: for `n` items at page size `p` it therefore issues
`(n + p - 1) / p + 1` requests — one per non-empty page plus the final
empty-page request — and returns all `n` items. In particular 250 items at
page size 100 take 4 requests (pages of 100, 100, 50, then the empty page
4), not 3 as claimed. -/
theorem C5_pagination (items : List JVal) (pageSize fuel : Nat)
    (hp : 0 < pageSize) (hfuel : items.length + pageSize ≤ fuel * pageSize) :
    fetch_repos_data (pageOf items pageSize) fuel
      = (items, (items.length + pageSize - 1) / pageSize + 1) := by
  have h := reposLoop_spec items pageSize hp fuel 0 [] (by simpa using hfuel)
  simpa [fetch_repos_data] using h

/-- Witness for C5: 250 items at page size 100 with ample fuel return all
items in 4 requests. -/
theorem C5_witness :
    fetch_repos_data (pageOf (List.replicate 250 (JVal.jnum 0)) 100) 10
      = (List.replicate 250 (JVal.jnum 0), 4) := by
  have h := C5_pagination (List.replicate 250 (JVal.jnum 0)) 100 10 (by decide)
    (by rw [List.length_replicate]; omega)
  rw [List.length_replicate] at h
  exact h

set_option maxRecDepth 8000 in
/-- Counterexample to C5 as stated: serving 250 items in pages of 100
issues 4 requests (the loop must observe the empty fourth page to stop),
not exactly 3; all 250 items are still returned. -/
theorem C5_counterexample :
    (fetch_repos_data (pageOf (List.replicate 250 (JVal.jnum 0)) 100) 10).2 = 4 ∧
    ¬ (fetch_repos_data (pageOf (List.replicate 250 (JVal.jnum 0)) 100) 10).2 = 3 ∧
    (fetch_repos_data (pageOf (List.replicate 250 (JVal.jnum 0)) 100) 10).1.length = 250 := by
  refine ⟨rfl, ?_, rfl⟩
  rw [show (fetch_repos_data (pageOf (List.replicate 250 (JVal.jnum 0)) 100) 10).2 = 4 from rfl]
  omega

/-- C6. A 403 response whose `X-RateLimit-Remaining` header equals `"0"`
makes `make_github_request` raise the dedicated rate-limit exception
carrying the reset time parsed from `X-RateLimit-Reset` — it never reaches
`raise_for_status`, so the failure is not the generic `HTTPError` (the
constructors `rateLimited` and `httpError` are distinct). -/
theorem C6_rate_limited (r : HttpResponse) (s : String) (t : Int)
    (h403 : r.status = 403) (hrem : r.rateRemaining = some "0")
    (hrst : r.rateReset = some s) (hparse : parseIntStr s = some t) :
    make_github_request r = .error (.rateLimited t) := by
  simp [make_github_request, h403, hrem, hrst, hparse]

/-- Witness for C6 at a concrete 403 rate-limited response. -/
theorem C6_witness :
    make_github_request ⟨403, some "0", some "1700000000", "", none⟩
      = .error (.rateLimited 1700000000) :=
  C6_rate_limited ⟨403, some "0", some "1700000000", "", none⟩ "1700000000"
    1700000000 rfl rfl rfl rfl

/-- C7 (amended). The code-hosting fetcher (`make_github_request`) fails
with an `HTTPError` carrying the response's status and body on every
status in 400-599 outside the 403-with-zero-quota case (`raise_for_status`
raises exactly for 4xx/5xx). The citation fetcher, by contrast, never
inspects the HTTP status at all — `fetch_scholar_data` calls
`response.json()` directly, so its outcome depends only on the parsed
body. -/
theorem C7_http_error (r : HttpResponse) (h4 : 400 ≤ r.status)
    (h6 : r.status < 600) (hnot : ¬(r.status = 403 ∧ r.rateRemaining = some "0")) :
    make_github_request r = .error (.httpError r.status r.body) ∧
    (∀ (r2 r3 : HttpResponse) (nowStr : String) (y : Int),
      r2.bodyJson = r3.bodyJson →
      scholarFetchBody r2 nowStr y = scholarFetchBody r3 nowStr y) := by
  constructor
  · unfold make_github_request raiseForStatusJson
    by_cases h403 : r.status = 403 ∧ r.rateRemaining.isSome
    · rw [if_pos h403]
      have hne : ¬(r.rateRemaining = some "0") := fun hr => hnot ⟨h403.1, hr⟩
      rw [if_neg hne, if_pos ⟨h4, h6⟩]
    · rw [if_neg h403, if_pos ⟨h4, h6⟩]
  · intro r2 r3 nowStr y hbody
    unfold scholarFetchBody
    rw [hbody]

/-- Witness for C7 at a concrete 500 response. -/
theorem C7_witness :
    make_github_request ⟨500, none, none, "oops", none⟩
      = .error (.httpError 500 "oops") ∧
    (∀ (r2 r3 : HttpResponse) (nowStr : String) (y : Int),
      r2.bodyJson = r3.bodyJson →
      scholarFetchBody r2 nowStr y = scholarFetchBody r3 nowStr y) :=
  C7_http_error ⟨500, none, none, "oops", none⟩ (by decide) (by decide)
    (by simp)

/-- Counterexample to C7 as stated: a status-500 response whose body is the
empty JSON object makes the citation fetcher succeed with the all-defaults
record — it does not fail with an `HttpError` (or at all), because
`fetch_scholar_data` never checks the response status. -/
theorem C7_counterexample :
    (fetch_scholar_data 100000 14400 .absent
        (.ok ⟨500, none, none, "\x7b\x7d", some (.jobj [])⟩)
        "2026-01-01 00:00" 2026 true).value
      = .ok (.jobj [("name", .jstr "Unknown"), ("citations", .jnum 0),
          ("h_index", .jnum 0), ("i10_index", .jnum 0),
          ("current_year_citations", .jnum 0),
          ("last_updated", .jstr "2026-01-01 00:00")]) := by
  rfl

lemma exceptBind_ok {ε α β : Type} (a : α) (f : α → Except ε β) :
    (Except.ok a >>= f) = f a := rfl

lemma exceptBind_error {ε α β : Type} (e : ε) (f : α → Except ε β) :
    ((Except.error e : Except ε α) >>= f) = .error e := rfl

lemma any_key_true {fs : List (String × JVal)} {k : String} {v : JVal}
    (h : lookupField fs k = some v) :
    fs.any (fun p => decide (p.1 = k)) = true := by
  induction fs with
  | nil => simp [lookupField] at h
  | cons p rest ih =>
      rw [lookupField] at h
      by_cases hk : p.1 = k
      · simp [List.any_cons, hk]
      · rw [if_neg hk] at h
        simp [List.any_cons, hk, ih h]

lemma any_key_false {fs : List (String × JVal)} {k : String}
    (h : lookupField fs k = none) :
    fs.any (fun p => decide (p.1 = k)) = false := by
  induction fs with
  | nil => simp
  | cons p rest ih =>
      rw [lookupField] at h
      by_cases hk : p.1 = k
      · rw [if_pos hk] at h; simp at h
      · rw [if_neg hk] at h
        simp [List.any_cons, hk, ih h]

lemma scholarAuthorName_absent {fs : List (String × JVal)}
    (h : lookupField fs "author" = none) :
    scholarAuthorName (.jobj fs) = .ok (.jstr "Unknown") := by
  simp [scholarAuthorName, pyIn, liftPy, any_key_false h, exceptBind_ok]

lemma scholarTableOpt_absent {fs : List (String × JVal)}
    (h : lookupField fs "cited_by" = none) :
    scholarTableOpt (.jobj fs) = .ok none := by
  simp [scholarTableOpt, pyIn, liftPy, any_key_false h, exceptBind_ok]

lemma scholarGraphVal_absent {fs : List (String × JVal)} (y : Int)
    (h : lookupField fs "cited_by" = none) :
    scholarGraphVal (.jobj fs) y = .ok (.jnum 0) := by
  simp [scholarGraphVal, pyIn, liftPy, any_key_false h, exceptBind_ok]

/-- C10 (amended). The citation fetcher's body processing raises on an
unparseable body and on a body containing an `"error"` key; on a body that
is an object without those keys it assembles the record, substituting
`"Unknown"` and `0` for every absent optional field (shown for the
all-absent body and for a fully-populated body) — but, as the
counterexample shows, a present-but-misshapen optional field can also make
it raise, so success additionally requires each present optional field to
have the shape the code expects. -/
theorem C10_scholar_body :
    (∀ (r : HttpResponse) (nowStr : String) (y : Int), r.bodyJson = none →
      scholarFetchBody r nowStr y = .error .jsonError) ∧
    (∀ (r : HttpResponse) (nowStr : String) (y : Int)
        (fs : List (String × JVal)) (v : JVal),
      r.bodyJson = some (.jobj fs) → lookupField fs "error" = some v →
      scholarFetchBody r nowStr y
        = .error (.serpError ("SERP API Error: " ++ pyStr v))) ∧
    (∀ (r : HttpResponse) (nowStr : String) (y : Int)
        (fs : List (String × JVal)),
      r.bodyJson = some (.jobj fs) → lookupField fs "error" = none →
      lookupField fs "author" = none → lookupField fs "cited_by" = none →
      scholarFetchBody r nowStr y
        = .ok (.jobj [("name", .jstr "Unknown"), ("citations", .jnum 0),
            ("h_index", .jnum 0), ("i10_index", .jnum 0),
            ("current_year_citations", .jnum 0),
            ("last_updated", .jstr nowStr)])) ∧
    (∀ (nm nowStr : String) (a b c cy : Int),
      scholarFetchBody
          ⟨200, none, none, "",
           some (.jobj
             [("author", .jobj [("name", .jstr nm)]),
              ("cited_by", .jobj
                [("table", .jarr
                   [.jobj [("citations", .jobj [("all", .jnum a)])],
                    .jobj [("h_index", .jobj [("all", .jnum b)])],
                    .jobj [("i10_index", .jobj [("all", .jnum c)])]]),
                 ("graph", .jarr
                   [.jobj [("year", .jnum 2026), ("citations", .jnum cy)]])])])⟩
          nowStr 2026
        = .ok (.jobj [("name", .jstr nm), ("citations", .jnum a),
            ("h_index", .jnum b), ("i10_index", .jnum c),
            ("current_year_citations", .jnum cy),
            ("last_updated", .jstr nowStr)])) := by
  refine ⟨?_, ?_, ?_, ?_⟩
  · intro r nowStr y hjson
    obtain ⟨st, rr, rs, bd, bj⟩ := r
    cases hjson
    rfl
  · intro r nowStr y fs v hjson herr
    obtain ⟨st, rr, rs, bd, bj⟩ := r
    cases hjson
    simp only [scholarFetchBody, exceptBind_ok]
    have h1 : pyIn "error" (.jobj fs) = .ok true := by
      simp [pyIn, any_key_true herr]
    have h2 : pySub (.jobj fs) "error" = .ok v := by
      simp [pySub, herr]
    simp [h1, h2, liftPy, exceptBind_ok]
  · intro r nowStr y fs hjson herr hauth hcited
    obtain ⟨st, rr, rs, bd, bj⟩ := r
    cases hjson
    simp only [scholarFetchBody, exceptBind_ok]
    have h1 : pyIn "error" (.jobj fs) = .ok false := by
      simp [pyIn, any_key_false herr]
    simp [h1, liftPy, exceptBind_ok, scholarAuthorName_absent hauth,
      scholarTableOpt_absent hcited, scholarGraphVal_absent y hcited]
  · intro nm nowStr a b c cy
    rfl

/-- Witness for C10: the all-defaults record for the empty-object body, and
the serp error for a body carrying an `"error"` key. -/
theorem C10_witness :
    scholarFetchBody ⟨200, none, none, "\x7b\x7d", some (.jobj [])⟩
        "2026-01-01 00:00" 2026
      = .ok (.jobj [("name", .jstr "Unknown"), ("citations", .jnum 0),
          ("h_index", .jnum 0), ("i10_index", .jnum 0),
          ("current_year_citations", .jnum 0),
          ("last_updated", .jstr "2026-01-01 00:00")]) ∧
    scholarFetchBody ⟨200, none, none, "",
        some (.jobj [("error", .jstr "bad key")])⟩ "2026-01-01 00:00" 2026
      = .error (.serpError ("SERP API Error: " ++ pyStr (.jstr "bad key"))) :=
  ⟨C10_scholar_body.2.2.1 ⟨200, none, none, "\x7b\x7d", some (.jobj [])⟩
      "2026-01-01 00:00" 2026 [] rfl rfl rfl rfl,
   C10_scholar_body.2.1 ⟨200, none, none, "",
      some (.jobj [("error", .jstr "bad key")])⟩ "2026-01-01 00:00" 2026
      [("error", .jstr "bad key")] (.jstr "bad key") rfl rfl⟩

/-- Counterexample to C10 as stated: this body is valid JSON and contains
no `"error"` key, yet the fetch raises — `citation_table[0]["citations"]`
exists but lacks the `"all"` subkey, so `["all"]` raises `KeyError` —
refuting "raises if and only if the body is not parseable JSON or contains
an `"error"` key". -/
theorem C10_counterexample :
    scholarFetchBody ⟨200, none, none, "",
        some (.jobj [("cited_by", .jobj [("table",
          .jarr [.jobj [("citations", .jobj [])]])])])⟩ "x" 2026
      = .error (.pyErr .keyError) ∧
    pyIn "error" (.jobj [("cited_by", .jobj [("table",
        .jarr [.jobj [("citations", .jobj [])]])])]) = .ok false :=
  ⟨rfl, rfl⟩

/-- C1 (amended). When the live fetch fails, the entry point re-reads the
cache through the same expiration-checking `load_cache` — the code has no
`load_raw` that ignores the window. Consequently (second conjunct) an
entry older than the window yields the minimal no-data error view, not a
cached view; the "(cached)"-marked view with the error message appended as
the last line (third conjunct) is produced only when the re-read returns a
truthy payload that renders, i.e. a fresh entry. -/
theorem C1_fallback_expiring :
    (∀ (now window : Int) (cf : CacheFile) (msg : String) (writeOk : Bool)
        (fmtStar : JVal → Except PyErr String),
      truthy (load_cache now window cf) = false →
      github_main now window cf (.error msg) writeOk fmtStar
        = github_fallback now window cf msg fmtStar) ∧
    (∀ (now window t : Int) (fs : List (String × JVal)) (msg : String)
        (fmtStar : JVal → Except PyErr String),
      lookupField fs "timestamp" = some (.jnum t) → window < now - t →
      github_fallback now window (.content (.jobj fs)) msg fmtStar
        = (["‚ùå GitHub | color=red", "---",
            "API Error: " ++ msg ++ " | color=#DB4437",
            "Please check your configuration and network | color=#7F7F7F",
            "---",
            "üîÑ Try Again | refresh=true"], 0)) ∧
    (∀ (now window : Int) (cf : CacheFile) (msg : String)
        (fmtStar : JVal → Except PyErr String) (nm st : JVal),
      truthy (load_cache now window cf) = true →
      pySub (load_cache now window cf) "name" = .ok nm →
      pySub (load_cache now window cf) "stars_received" = .ok st →
      isOkE (format_xbar_output fmtStar (load_cache now window cf)) = true →
      ∃ s, format_xbar_output fmtStar (load_cache now window cf) = .ok s ∧
        github_fallback now window cf msg fmtStar
          = ([("‚≠ê " ++ pyStr nm ++ ": " ++ pyStr st)
                ++ " (cached) | color=#F4B400 size=14",
              "---", "‚ö†Ô∏è Using cached data | color=#F4B400", s, "---",
              "‚ùå Error: " ++ msg ++ " | color=#DB4437"], 0)) := by
  refine ⟨?_, ?_, ?_⟩
  · intro now window cf msg wk fmtStar h
    simp [github_main, fetch_github_data, h]
  · intro now window t fs msg fmtStar ht hgt
    have hload := load_cache_stale now window t fs ht hgt
    simp [github_fallback, hload, truthy]
  · intro now window cf msg fmtStar nm st htr hname hstars hok
    cases hfmt : format_xbar_output fmtStar (load_cache now window cf) with
    | error e => rw [hfmt] at hok; simp [isOkE] at hok
    | ok s =>
        refine ⟨s, rfl, ?_⟩
        simp only [github_fallback, htr, if_true, hname, hstars, hfmt]

/-- Witness for C1: a fresh cache yields the "(cached)" view with the
trailing error line; a stale cache yields the hard-failure view. -/
theorem C1_witness :
    (∃ s, format_xbar_output fmtStarStub
        (load_cache 100000 3600 (.content (.jobj [("timestamp", .jnum 99000),
          ("data", .jobj [("username", .jstr "a"), ("name", .jstr "Alice"),
            ("stars_received", .jnum 5), ("followers", .jnum 1),
            ("monitored_repos", .jarr []), ("recent_stars", .jarr []),
            ("public_repos", .jnum 2)])]))) = .ok s ∧
      github_fallback 100000 3600 (.content (.jobj [("timestamp", .jnum 99000),
          ("data", .jobj [("username", .jstr "a"), ("name", .jstr "Alice"),
            ("stars_received", .jnum 5), ("followers", .jnum 1),
            ("monitored_repos", .jarr []), ("recent_stars", .jarr []),
            ("public_repos", .jnum 2)])])) "net down" fmtStarStub
        = ([("‚≠ê " ++ pyStr (.jstr "Alice") ++ ": " ++ pyStr (.jnum 5))
              ++ " (cached) | color=#F4B400 size=14",
            "---", "‚ö†Ô∏è Using cached data | color=#F4B400", s, "---",
            "‚ùå Error: " ++ "net down" ++ " | color=#DB4437"], 0)) ∧
    github_fallback 100000 3600 (.content (.jobj [("timestamp", .jnum 0),
        ("data", .jobj [("name", .jstr "Alice"), ("stars_received", .jnum 5)])]))
        "net down" fmtStarStub
      = (["‚ùå GitHub | color=red", "---",
          "API Error: " ++ "net down" ++ " | color=#DB4437",
          "Please check your configuration and network | color=#7F7F7F",
          "---",
          "üîÑ Try Again | refresh=true"], 0) :=
  ⟨C1_fallback_expiring.2.2 100000 3600 _ "net down" fmtStarStub
      (.jstr "Alice") (.jnum 5) rfl rfl rfl rfl,
   C1_fallback_expiring.2.1 100000 3600 0 _ "net down" fmtStarStub rfl (by decide)⟩

/-- Counterexample to C1 as stated: the live fetch fails while the cache
file holds a well-formed entry whose age (10000 s) exceeds the 3600 s
window; the claim predicts the cached view with "(cached)" in the first
line, but the entry point re-checks the expiration window and renders the
minimal no-data error view — whose first line does not contain
"(cached)". -/
theorem C1_counterexample :
    github_main 10000 3600
        (.content (.jobj [("timestamp", .jnum 0),
          ("data", .jobj [("name", .jstr "Alice"), ("stars_received", .jnum 5)])]))
        (.error "net down") true fmtStarStub
      = (["‚ùå GitHub | color=red", "---",
          "API Error: net down | color=#DB4437",
          "Please check your configuration and network | color=#7F7F7F",
          "---",
          "üîÑ Try Again | refresh=true"], 0) ∧
    strContains "‚ùå GitHub | color=red" "(cached)" = false :=
  ⟨rfl, rfl⟩

/-- C8 (amended). Both entry points exit 0 in every combination of fetch
success, fetch failure and cache state, provided every payload handed to
the renderer renders without an exception (which holds for every record
the scripts themselves write). Without that proviso the claim fails: as
the counterexample shows, a truthy cached payload missing a rendered field
makes the `except` handler itself raise `KeyError`, and the process exits
non-zero. -/
theorem C8_exit_code :
    (∀ (now window : Int) (cf : CacheFile) (live : Except String JVal)
        (writeOk : Bool) (fmtStar : JVal → Except PyErr String),
      (∀ gd, (fetch_github_data now window cf live writeOk).value = .ok gd →
        isOkE (format_xbar_output fmtStar gd) = true) →
      (github_main now window cf live writeOk fmtStar).2 = 0) ∧
    (∀ (now window : Int) (cf : CacheFile) (resp : Except String HttpResponse)
        (nowStr : String) (year : Int) (writeOk : Bool) (scholarId : String),
      (∀ sd, (fetch_scholar_data now window cf resp nowStr year writeOk).value
          = .ok sd → isOkE (scholar_format scholarId sd) = true) →
      (scholar_main now window cf resp nowStr year writeOk scholarId).2 = 0) := by
  constructor
  · intro now window cf live wk fmtStar h
    unfold github_main
    by_cases htr : truthy (load_cache now window cf) = true
    · rw [fetch_github_hit now window cf live wk htr]
      have hv := h (load_cache now window cf)
        (by rw [fetch_github_hit now window cf live wk htr])
      cases hfmt : format_xbar_output fmtStar (load_cache now window cf) with
      | ok s => simp [hfmt]
      | error e => rw [hfmt] at hv; simp [isOkE] at hv
    · have htr' : truthy (load_cache now window cf) = false := by
        simp only [Bool.not_eq_true] at htr; exact htr
      rw [fetch_github_miss now window cf live wk htr']
      cases live with
      | ok d =>
          have hv := h d (by rw [fetch_github_miss now window cf _ wk htr'])
          cases hfmt : format_xbar_output fmtStar d with
          | ok s => simp [hfmt]
          | error e => rw [hfmt] at hv; simp [isOkE] at hv
      | error msg =>
          simp [github_fallback, htr']
  · intro now window cf resp nowStr year wk scholarId h
    unfold scholar_main
    by_cases htr : truthy (load_cache now window cf) = true
    · rw [fetch_scholar_hit now window cf resp nowStr year wk htr]
      have hv := h (load_cache now window cf)
        (by rw [fetch_scholar_hit now window cf resp nowStr year wk htr])
      cases hfmt : scholar_format scholarId (load_cache now window cf) with
      | ok s => simp [hfmt]
      | error e => rw [hfmt] at hv; simp [isOkE] at hv
    · have htr' : truthy (load_cache now window cf) = false := by
        simp only [Bool.not_eq_true] at htr; exact htr
      rw [fetch_scholar_miss now window cf resp nowStr year wk htr']
      cases resp with
      | error msg => simp [scholar_fallback, htr']
      | ok r =>
          cases hsb : scholarFetchBody r nowStr year with
          | ok result =>
              have hv := h result
                (by rw [fetch_scholar_miss now window cf _ nowStr year wk htr']
                    simp [hsb])
              cases hfmt : scholar_format scholarId result with
              | ok s => simp [hsb, hfmt]
              | error e => rw [hfmt] at hv; simp [isOkE] at hv
          | error e => simp [hsb, scholar_fallback, htr']

/-- Witness for C8: with well-formed fresh cached records (which render
fine), both entry points exit 0 even though the live fetch fails. -/
theorem C8_witness :
    (github_main 100000 3600 (.content (.jobj [("timestamp", .jnum 99000),
        ("data", .jobj [("username", .jstr "a"), ("name", .jstr "Alice"),
          ("stars_received", .jnum 5), ("followers", .jnum 1),
          ("monitored_repos", .jarr []), ("recent_stars", .jarr []),
          ("public_repos", .jnum 2)])]))
        (.error "net down") true fmtStarStub).2 = 0 ∧
    (scholar_main 100000 14400 (.content (.jobj [("timestamp", .jnum 99000),
        ("data", .jobj [("name", .jstr "A"), ("citations", .jnum 1),
          ("h_index", .jnum 2), ("i10_index", .jnum 3),
          ("current_year_citations", .jnum 4)])]))
        (.error "net down") "2026-01-01 00:00" 2026 true "SID").2 = 0 := by
  constructor
  · apply C8_exit_code.1
    intro gd hgd
    have h2 : (Except.ok (JVal.jobj [("username", .jstr "a"),
        ("name", .jstr "Alice"), ("stars_received", .jnum 5),
        ("followers", .jnum 1), ("monitored_repos", .jarr []),
        ("recent_stars", .jarr []), ("public_repos", .jnum 2)])
        : Except String JVal) = Except.ok gd := hgd
    rw [← Except.ok.inj h2]
    rfl
  · apply C8_exit_code.2
    intro sd hsd
    have h2 : (Except.ok (JVal.jobj [("name", .jstr "A"),
        ("citations", .jnum 1), ("h_index", .jnum 2), ("i10_index", .jnum 3),
        ("current_year_citations", .jnum 4)]) : Except ScholarErr JVal)
        = Except.ok sd := hsd
    rw [← Except.ok.inj h2]
    rfl

/-- Counterexample to C8 as stated: the cache holds a fresh, truthy, but
non-schema payload (no `"name"` key). The renderer raises inside the
`try`, and the `except` handler's own `cached_data['name']` access raises
`KeyError` outside any handler, so the process exits 1, not 0. -/
theorem C8_counterexample :
    (github_main 10000 3600
        (.content (.jobj [("timestamp", .jnum 9000),
          ("data", .jobj [("x", .jnum 1)])]))
        (.error "boom") true fmtStarStub).2 = 1 :=
  rfl

end ProfileMonitor
